import Mathlib

/-!
Verification of the forecast-NN vectorization layer
(logai/algorithms/vectorization_algo/forecast_nn.py).

The embedding models Python strings as lists of characters (`Str`), pandas
Series as Lean lists (a missing/NaN cell is `Option.none`), and the pickle
file at `config.vectorizer_metadata_filepath` as an explicit
`Option MetaData` value threaded through the stateful methods (`none` means
the file does not exist).  Python exceptions are modelled with
`Except PyErr`.  The two sub-vectorizers (`Sequential`, `Semantic` from
sequential.py / semantic.py, which the spec declares external collaborators
specified only by interface) are modelled as record values exposing `vocab`,
`vocab_size`, `embed_matrix` and `transform`, and their `fit` methods are
taken as arbitrary state-transformer parameters of `ForecastNN.fit`.
-/

namespace LogAI

/-- A Python string, modelled as its list of characters. -/
abbrev Str := List Char

/-- The Python exceptions the modelled code can raise. -/
inductive PyErr where
  | keyError
  | typeError
  | attributeError
  | unboundLocalError
  | indexError
  deriving DecidableEq, Repr

/-- Python `lambda x: x[0]` on a numeric array: the first element, or an
IndexError on an empty array. -/
def pyFirst (xs : List Int) : Except PyErr Int :=
  match xs with
  | [] => Except.error PyErr.indexError
  | x :: _ => Except.ok x

/-- Python `zip` over four sequences: truncates to the shortest input. -/
def zip4 {α β γ δ : Type} : List α → List β → List γ → List δ → List (α × β × γ × δ)
  | a :: as, b :: bs, c :: cs, d :: ds => (a, b, c, d) :: zip4 as bs cs ds
  | _, _, _, _ => []

/-- Python `sep.join(entries)`: the entries concatenated with `sep` between
consecutive entries. -/
def pyJoin (sep : Str) : List Str → Str
  | [] => []
  | [e] => e
  | e :: e' :: es => e ++ sep ++ pyJoin sep (e' :: es)

/-- Worker for `pySplit`: scans the string left to right, cutting at each
non-overlapping occurrence of the separator.  `fuel` only forces structural
termination; every call gives it more fuel than the string's length, and for
a nonempty separator each step strictly consumes the string, so the
fuel-exhaustion arm is never reached. -/
def pySplitAux (sep : Str) : Nat → Str → Str → List Str
  | _, [], acc => [acc.reverse]
  | 0, s, acc => [acc.reverse ++ s]
  | Nat.succ fuel, c :: rest, acc =>
    if sep.isPrefixOf (c :: rest) then
      acc.reverse :: pySplitAux sep fuel (List.drop sep.length (c :: rest)) []
    else
      pySplitAux sep fuel rest (c :: acc)

/-- Python `s.split(sep)` for a nonempty separator: cut at each
non-overlapping occurrence of `sep`, scanning left to right; `"".split(sep)`
is `[""]`.  (Python raises ValueError on an empty separator; the code under
verification always splits on the configured `sep_token`, `"[SEP]"` by
default, so the value returned here for `sep = []` is immaterial.) -/
def pySplit (sep s : Str) : List Str :=
  if sep = [] then [s] else pySplitAux sep (s.length + 1) s []

/-- The `Sequential` sub-vectorizer's interface. Modelled from the spec:
sequential.py is not part of the sources under verification; the spec
specifies the strategy only through the readable attributes `vocab`
(`None` until fit) and `vocab_size`, and the method
`transform : sequence of strings -> sequence of numeric feature arrays`. -/
structure SequentialVectorizer where
  vocab : Option (List Str)
  vocab_size : Int
  transform : List (Option Str) → List (List Int)

/-- The `Semantic` sub-vectorizer's interface. Modelled from the spec:
semantic.py is not part of the sources under verification; in addition to
the sequential interface it exposes `embed_matrix`, available once fit. -/
structure SemanticVectorizer where
  vocab : Option (List Str)
  vocab_size : Int
  embed_matrix : List (List Int)
  transform : List (Option Str) → List (List Int)

/-- Config of the vectorizer (class ForecastNNVectorizerParams).  The
path-plumbing fields (`output_dir`, `vectorizer_metadata_filepath`,
`vectorizer_model_dirpath`) are not modelled: the content of the metadata
file is threaded explicitly instead. -/
structure ForecastNNVectorizerParams where
  feature_type : String
  label_type : String
  sep_token : Str
  max_token_len : Option Nat := none
  min_token_count : Option Nat := none
  embedding_dim : Option Nat := none

/-- The `meta_data` dict.  It starts empty (`{}` in `__init__`); a key that
was never assigned is `none`. -/
structure MetaData where
  vocab_size : Option Int := none
  pretrain_matrix : Option (List (List Int)) := none
  num_labels : Option Int := none
  deriving DecidableEq, Repr

/-- The slice of a LogRecordObject that forecast_nn.py reads: the
`body[LOGLINE_NAME]` column, the optional `attributes[NEXT_LOGLINE_NAME]`
column (`none` when `NEXT_LOGLINE_NAME not in logrecord.attributes`), the
`labels[LABELS]` column and the `span_id[SPAN_ID]` column. -/
structure LogRecordObject where
  body : List (Option Str)
  attributes : Option (List (Option Str))
  labels : List Int
  span_id : List Int

/-- The mutable state of a ForecastNN vectorizer object. -/
structure ForecastNN where
  config : ForecastNNVectorizerParams
  meta_data : MetaData
  sequential_vectorizer : SequentialVectorizer
  semantic_vectorizer : Option SemanticVectorizer

/-- One dict appended to `self.dataset` by
`ForecastNNVectorizedDataset.__init__`. -/
structure ForecastNNSample where
  session_idx : List Int
  features : List Int
  window_anomalies : Int
  window_labels : Int
  deriving DecidableEq, Repr

/-- The vectorized dataset object. -/
structure ForecastNNVectorizedDataset where
  dataset : List ForecastNNSample
  deriving DecidableEq, Repr

/-- `ForecastNNVectorizedDataset.__init__`: iterates
`zip(logline_features, labels, nextlogline_ids, span_ids)` and appends one
sample per tuple, so unequal lengths are silently truncated to the shortest
input; `nextlogline_ids = None` makes `zip` raise TypeError
("'NoneType' object is not iterable"). -/
def ForecastNNVectorizedDataset.init (logline_features : List (List Int))
    (labels : List Int) (nextlogline_ids : Option (List Int))
    (span_ids : List Int) : Except PyErr ForecastNNVectorizedDataset :=
  match nextlogline_ids with
  | none => Except.error PyErr.typeError
  | some nexts =>
    Except.ok ⟨(zip4 logline_features labels nexts span_ids).map
      (fun x => { session_idx := [x.2.2.2], features := x.1,
                  window_anomalies := x.2.1, window_labels := x.2.2.1 })⟩

/-- `ForecastNN._process_logsequence`: `dropna`, then
`set(sep_token.join(list(seq)).split(sep_token))` collected back into a
series.  Python's set iteration order is arbitrary; `List.dedup` is the
chosen representative and every theorem about the output is stated up to
`toFinset`. -/
def ForecastNN.process_logsequence (sep : Str) (data_sequence : List (Option Str)) : List Str :=
  (pySplit sep (pyJoin sep (data_sequence.filterMap id))).dedup

/-- The `if/elif` feature-dispatch block at the top of `ForecastNN.transform`.
A feature type other than "sequential"/"semantics" falls through both
branches and leaves the local variable unassigned (`none`); the semantics
branch dereferences `self.semantic_vectorizer`, an AttributeError when that
is `None`. -/
def ForecastNN.logline_features (st : ForecastNN) (lr : LogRecordObject) :
    Except PyErr (Option (List (List Int))) :=
  if st.config.feature_type = "sequential" then
    Except.ok (some (st.sequential_vectorizer.transform lr.body))
  else if st.config.feature_type = "semantics" then
    match st.semantic_vectorizer with
    | none => Except.error PyErr.attributeError
    | some sv => Except.ok (some (sv.transform lr.body))
  else Except.ok none

/-- `ForecastNN.transform`: dispatch on feature type for the span features;
if the "next line" attribute is present, transform it through the
*sequential* sub-vectorizer and take each array's first id
(`.apply(lambda x: x[0])`), else leave `nextlogline_ids = None`; then build
the dataset.  Reading the never-assigned `logline_features` local at the
constructor call raises UnboundLocalError. -/
def ForecastNN.transform (st : ForecastNN) (lr : LogRecordObject) :
    Except PyErr ForecastNNVectorizedDataset :=
  match ForecastNN.logline_features st lr with
  | Except.error e => Except.error e
  | Except.ok feats =>
    match (match lr.attributes with
           | some nexts =>
             match (st.sequential_vectorizer.transform nexts).mapM pyFirst with
             | Except.error e => Except.error e
             | Except.ok ids => Except.ok (some ids)
           | none => Except.ok none) with
    | Except.error e => Except.error e
    | Except.ok nextlogline_ids =>
      match feats with
      | none => Except.error PyErr.unboundLocalError
      | some flist =>
        ForecastNNVectorizedDataset.init flist lr.labels nextlogline_ids lr.span_id

/-- `ForecastNN._dump_meta_data`: if the metadata file does not exist,
compute `vocab_size` (from the sequential sub-vectorizer when feature type
is "sequential", else from the semantic one), add `pretrain_matrix` only
for "semantics", compute `num_labels` (2 for "anomaly", else the sequential
vocab size) and write the dict to the file; if the file exists, load it
verbatim into `self.meta_data`.  `torch.Tensor` conversion is the identity
in this model. -/
def ForecastNN.dump_meta_data (st : ForecastNN) (fs : Option MetaData) :
    Except PyErr (ForecastNN × Option MetaData) :=
  match fs with
  | none =>
    match (if st.config.feature_type = "sequential" then
             Except.ok st.sequential_vectorizer.vocab_size
           else
             match st.semantic_vectorizer with
             | none => Except.error PyErr.attributeError
             | some sv => Except.ok sv.vocab_size) with
    | Except.error e => Except.error e
    | Except.ok vs =>
      let md1 := { st.meta_data with vocab_size := some vs }
      match (if st.config.feature_type = "semantics" then
               match st.semantic_vectorizer with
               | none => Except.error PyErr.attributeError
               | some sv => Except.ok { md1 with pretrain_matrix := some sv.embed_matrix }
             else Except.ok md1) with
      | Except.error e => Except.error e
      | Except.ok md2 =>
        let md3 := { md2 with
          num_labels := some (if st.config.label_type = "anomaly" then 2
                              else st.sequential_vectorizer.vocab_size) }
        Except.ok ({ st with meta_data := md3 }, some md3)
  | some m => Except.ok ({ st with meta_data := m }, some m)

/-- The condition of the first `if` of `ForecastNN.fit`:
`self.sequential_vectorizer.vocab is None or (feature_type == "semantics"
and self.semantic_vectorizer.vocab is None)`, with Python's short-circuit
evaluation (the semantic dereference only happens when the first disjunct
is false, and raises AttributeError when the vectorizer is `None`). -/
def ForecastNN.needsBuild (st : ForecastNN) : Except PyErr Bool :=
  if st.sequential_vectorizer.vocab = none then Except.ok true
  else if st.config.feature_type = "semantics" then
    match st.semantic_vectorizer with
    | none => Except.error PyErr.attributeError
    | some sv => Except.ok (decide (sv.vocab = none))
  else Except.ok false

/-- The event trace of one `ForecastNN.fit` call: which sub-vectorizer fits
ran, and the final metadata step. -/
inductive FitEvent where
  | fitSequential
  | fitSemantic
  | metaStep
  deriving DecidableEq, Repr

/-- `ForecastNN.fit`: when a vocabulary is still to be built, read the span
log lines AND the "next line" attribute column (a KeyError when the column
is absent), concatenate and preprocess them into the fitting corpus; fit
the sequential sub-vectorizer only if its vocab is unset; independently fit
the semantic one only for feature type "semantics" with unset vocab; always
finish with `_dump_meta_data`.  The sub-vectorizers' own `fit` methods are
external and passed as the state transformers `seqFit` / `semFit`; the
`corpus.getD []` default is never taken, since each fit branch implies the
corpus was built (mirroring Python, where the `loglines` local is only read
on paths where it was assigned). -/
def ForecastNN.fit (seqFit : SequentialVectorizer → List Str → SequentialVectorizer)
    (semFit : SemanticVectorizer → List Str → SemanticVectorizer)
    (st : ForecastNN) (fs : Option MetaData) (lr : LogRecordObject) :
    Except PyErr (ForecastNN × Option MetaData × List FitEvent) :=
  match ForecastNN.needsBuild st with
  | Except.error e => Except.error e
  | Except.ok needs =>
    match (if needs then
             match lr.attributes with
             | none => Except.error PyErr.keyError
             | some nextloglines =>
               Except.ok (some (ForecastNN.process_logsequence st.config.sep_token
                 (lr.body ++ nextloglines)))
           else Except.ok none) with
    | Except.error e => Except.error e
    | Except.ok corpus =>
      let seqStep :=
        if st.sequential_vectorizer.vocab = none then
          (seqFit st.sequential_vectorizer (corpus.getD []), [FitEvent.fitSequential])
        else (st.sequential_vectorizer, [])
      match (if st.config.feature_type = "semantics" then
               match st.semantic_vectorizer with
               | none => Except.error PyErr.attributeError
               | some sv =>
                 if sv.vocab = none then
                   Except.ok (some (semFit sv (corpus.getD [])), [FitEvent.fitSemantic])
                 else Except.ok (st.semantic_vectorizer, ([] : List FitEvent))
             else Except.ok (st.semantic_vectorizer, ([] : List FitEvent))) with
      | Except.error e => Except.error e
      | Except.ok semStep =>
        match ForecastNN.dump_meta_data
            { st with sequential_vectorizer := seqStep.1,
                      semantic_vectorizer := semStep.1 } fs with
        | Except.error e => Except.error e
        | Except.ok (st3, fs2) => Except.ok (st3, fs2, seqStep.2 ++ semStep.2 ++ [FitEvent.metaStep])

/-! Concrete states used to evaluate the model on explicit inputs. -/

/-- A fitted sequential sub-vectorizer with a trivial transform. -/
def seqVecDemo : SequentialVectorizer :=
  { vocab := some [['a'], ['b']], vocab_size := 3,
    transform := fun xs => xs.map (fun _ => [0]) }

/-- An unfitted sequential sub-vectorizer (`vocab` still `None`). -/
def seqVecUnfit : SequentialVectorizer :=
  { vocab := none, vocab_size := 0,
    transform := fun xs => xs.map (fun _ => [0]) }

/-- A fitted semantic sub-vectorizer with a trivial transform. -/
def semVecDemo : SemanticVectorizer :=
  { vocab := some [['a']], vocab_size := 7, embed_matrix := [[1, 2], [3, 4]],
    transform := fun xs => xs.map (fun _ => [1]) }

/-- A sequential-mode orchestrator whose vocabulary is already built. -/
def fnnSeqDemo : ForecastNN :=
  { config := { feature_type := "sequential", label_type := "anomaly", sep_token := ['s'] },
    meta_data := {}, sequential_vectorizer := seqVecDemo, semantic_vectorizer := none }

/-- A semantics-mode orchestrator whose vocabularies are already built. -/
def fnnSemDemo : ForecastNN :=
  { config := { feature_type := "semantics", label_type := "next_log", sep_token := ['s'] },
    meta_data := {}, sequential_vectorizer := seqVecDemo,
    semantic_vectorizer := some semVecDemo }

/-- A sequential-mode orchestrator whose vocabulary is still unset. -/
def fnnUnfitDemo : ForecastNN :=
  { config := { feature_type := "sequential", label_type := "anomaly", sep_token := ['s'] },
    meta_data := {}, sequential_vectorizer := seqVecUnfit, semantic_vectorizer := none }

/-- An orchestrator whose feature type is neither "sequential" nor
"semantics". -/
def fnnBadDemo : ForecastNN :=
  { config := { feature_type := "counting", label_type := "anomaly", sep_token := ['s'] },
    meta_data := {}, sequential_vectorizer := seqVecDemo, semantic_vectorizer := none }

/-- C1: dataset construction from four per-span inputs of differing lengths
(5 feature arrays, 4 labels, 5 next ids, 5 span ids) does NOT fail with an
alignment error: `zip` silently truncates, returning a 4-sample dataset. -/
theorem c1_zip_truncates :
    (ForecastNNVectorizedDataset.init [[1], [2], [3], [4], [5]] [0, 1, 0, 1]
        (some [7, 8, 9, 10, 11]) [10, 11, 12, 13, 14]).map
      (fun ds => ds.dataset.length) = Except.ok 4 := by
  rfl

/-- C2: on a logrecord whose attributes contain no "next line" entry,
`transform` does NOT return a dataset with `window_labels` unavailable: it
passes `nextlogline_ids = None` to the dataset builder, whose `zip` raises
TypeError. -/
theorem c2_missing_attr_typeerror :
    ForecastNN.transform fnnSeqDemo
      { body := [some ['x']], attributes := none, labels := [0], span_id := [5] } =
      Except.error PyErr.typeError := by
  rfl

/-- C3: with feature type "counting" (neither "sequential" nor "semantics"),
`transform` does not raise an explicit configuration error: both dispatch
branches are skipped, the feature variable stays unassigned, and reading it
at the dataset-constructor call raises UnboundLocalError. -/
theorem c3_unbound_local :
    ForecastNN.transform fnnBadDemo
      { body := [some ['x']], attributes := some [some ['y']], labels := [0], span_id := [5] } =
      Except.error PyErr.unboundLocalError := by
  rfl

/-- C6: whenever the metadata file exists (`fs = some m`), the metadata step
loads the file's contents verbatim into `meta_data` and returns, performing
no recomputation and no consistency check: the result is `m` for EVERY
in-memory state `st`, whatever its vocabulary sizes. -/
theorem c6_meta_load_verbatim (st : ForecastNN) (m : MetaData) :
    ForecastNN.dump_meta_data st (some m) =
      Except.ok ({ st with meta_data := m }, some m) :=
  rfl

/-- C10: whenever `fit` decides vocabulary building is needed, it
unconditionally reads the "next line" attribute column to build the fitting
corpus, so on a logrecord lacking that column `fit` fails with a KeyError
(for every sub-vectorizer fit behavior and every metadata-file state). -/
theorem c10_fit_reads_next_attr
    (seqFit : SequentialVectorizer → List Str → SequentialVectorizer)
    (semFit : SemanticVectorizer → List Str → SemanticVectorizer)
    (st : ForecastNN) (fs : Option MetaData) (lr : LogRecordObject)
    (hneeds : ForecastNN.needsBuild st = Except.ok true)
    (hattr : lr.attributes = none) :
    ForecastNN.fit seqFit semFit st fs lr = Except.error PyErr.keyError := by
  simp only [ForecastNN.fit, hneeds, hattr, if_pos]

/-- C10 witness: a concrete unfitted orchestrator and a record without the
"next line" attribute. -/
theorem c10_fit_reads_next_attr_witness :
    ForecastNN.needsBuild fnnUnfitDemo = Except.ok true ∧
    ForecastNN.fit (fun s _ => s) (fun s _ => s) fnnUnfitDemo none
      { body := [some ['x']], attributes := none, labels := [0], span_id := [5] } =
      Except.error PyErr.keyError :=
  ⟨rfl, c10_fit_reads_next_attr _ _ fnnUnfitDemo none _ rfl rfl⟩

/-- The metadata record computed when the file is absent and the feature
type is "sequential". -/
def mdSeq (st : ForecastNN) : MetaData :=
  { st.meta_data with
    vocab_size := some st.sequential_vectorizer.vocab_size,
    num_labels := some (if st.config.label_type = "anomaly" then 2
                        else st.sequential_vectorizer.vocab_size) }

/-- The metadata record computed when the file is absent and the feature
type is "semantics" with semantic sub-vectorizer `sv`. -/
def mdSem (st : ForecastNN) (sv : SemanticVectorizer) : MetaData :=
  { st.meta_data with
    vocab_size := some sv.vocab_size,
    pretrain_matrix := some sv.embed_matrix,
    num_labels := some (if st.config.label_type = "anomaly" then 2
                        else st.sequential_vectorizer.vocab_size) }

theorem dump_fresh_sequential (st : ForecastNN)
    (hft : st.config.feature_type = "sequential") :
    ForecastNN.dump_meta_data st none =
      Except.ok ({ st with meta_data := mdSeq st }, some (mdSeq st)) := by
  have hne : st.config.feature_type ≠ "semantics" := by rw [hft]; decide
  simp [ForecastNN.dump_meta_data, hft, hne, mdSeq]

theorem dump_fresh_semantics (st : ForecastNN) (sv : SemanticVectorizer)
    (hft : st.config.feature_type = "semantics")
    (hsv : st.semantic_vectorizer = some sv) :
    ForecastNN.dump_meta_data st none =
      Except.ok ({ st with meta_data := mdSem st sv }, some (mdSem st sv)) := by
  have hne : st.config.feature_type ≠ "sequential" := by rw [hft]; decide
  simp [ForecastNN.dump_meta_data, hft, hne, hsv, mdSem]

/-- C4: with no metadata file present and a fresh metadata dict, the record
written by the metadata step takes `vocab_size` from the sequential
sub-vectorizer unless the feature type is "semantics" (then the semantic
vocab size), contains `pretrain_matrix` exactly when the feature type is
"semantics" (the semantic embedding matrix), and has `num_labels = 2` for
label type "anomaly" and the sequential vocab size otherwise. -/
theorem c4_meta_computed_fresh (st : ForecastNN)
    (hfresh : st.meta_data.pretrain_matrix = none)
    (hwf : st.config.feature_type = "sequential"
         ∨ (st.config.feature_type = "semantics"
            ∧ ∃ sv, st.semantic_vectorizer = some sv)) :
    ∃ st' md, ForecastNN.dump_meta_data st none = Except.ok (st', some md)
      ∧ st'.meta_data = md
      ∧ (st.config.feature_type = "sequential" →
          md.vocab_size = some st.sequential_vectorizer.vocab_size
            ∧ md.pretrain_matrix = none)
      ∧ (∀ sv, st.semantic_vectorizer = some sv →
          st.config.feature_type = "semantics" →
          md.vocab_size = some sv.vocab_size
            ∧ md.pretrain_matrix = some sv.embed_matrix)
      ∧ md.num_labels = some (if st.config.label_type = "anomaly" then 2
                              else st.sequential_vectorizer.vocab_size) := by
  rcases hwf with hft | ⟨hft, sv, hsv⟩
  · refine ⟨_, _, dump_fresh_sequential st hft, rfl, fun _ => ⟨rfl, hfresh⟩,
      fun sv' _ hft' => absurd (hft.symm.trans hft') (by decide), rfl⟩
  · refine ⟨_, _, dump_fresh_semantics st sv hft hsv, rfl,
      fun hft' => absurd (hft.symm.trans hft') (by decide),
      fun sv' hsv' _ => ?_, rfl⟩
    obtain rfl : sv = sv' := Option.some.inj (hsv.symm.trans hsv')
    exact ⟨rfl, rfl⟩

/-- C4 witness: a concrete semantics-mode orchestrator with a fresh
metadata dict and no metadata file. -/
theorem c4_meta_computed_fresh_witness :
    fnnSemDemo.meta_data.pretrain_matrix = none ∧
    (∃ st' md, ForecastNN.dump_meta_data fnnSemDemo none = Except.ok (st', some md)
      ∧ st'.meta_data = md
      ∧ (fnnSemDemo.config.feature_type = "sequential" →
          md.vocab_size = some fnnSemDemo.sequential_vectorizer.vocab_size
            ∧ md.pretrain_matrix = none)
      ∧ (∀ sv, fnnSemDemo.semantic_vectorizer = some sv →
          fnnSemDemo.config.feature_type = "semantics" →
          md.vocab_size = some sv.vocab_size
            ∧ md.pretrain_matrix = some sv.embed_matrix)
      ∧ md.num_labels = some (if fnnSemDemo.config.label_type = "anomaly" then 2
                              else fnnSemDemo.sequential_vectorizer.vocab_size)) :=
  ⟨rfl, c4_meta_computed_fresh fnnSemDemo rfl (Or.inr ⟨rfl, semVecDemo, rfl⟩)⟩

/-- C5: on an orchestrator whose required vocabularies are already built
(sequential vocab set, and semantic vocab set when the feature type is
"semantics"), `fit` re-fits neither sub-vectorizer — both sub-vectorizer
states are returned unchanged and the event trace is exactly the metadata
step — for every external fit behavior, metadata-file state and input
record (the record's "next line" attribute is never read). -/
theorem c5_fit_no_refit
    (seqFit : SequentialVectorizer → List Str → SequentialVectorizer)
    (semFit : SemanticVectorizer → List Str → SemanticVectorizer)
    (st : ForecastNN) (fs : Option MetaData) (lr : LogRecordObject)
    (hseq : st.sequential_vectorizer.vocab ≠ none)
    (hwf : st.config.feature_type = "sequential"
         ∨ (st.config.feature_type = "semantics"
            ∧ ∃ sv, st.semantic_vectorizer = some sv ∧ sv.vocab ≠ none)) :
    ∃ st' fs', ForecastNN.fit seqFit semFit st fs lr =
        Except.ok (st', fs', [FitEvent.metaStep])
      ∧ st'.sequential_vectorizer = st.sequential_vectorizer
      ∧ st'.semantic_vectorizer = st.semantic_vectorizer := by
  have hnb : ForecastNN.needsBuild st = Except.ok false := by
    rcases hwf with hft | ⟨hft, sv, hsv, hv⟩
    · have hne : st.config.feature_type ≠ "semantics" := by rw [hft]; decide
      simp [ForecastNN.needsBuild, hseq, hne]
    · simp [ForecastNN.needsBuild, hseq, hft, hsv, hv]
  have hdump : ∃ md, ForecastNN.dump_meta_data st fs =
      Except.ok ({ st with meta_data := md }, some md) := by
    cases fs with
    | some m => exact ⟨m, rfl⟩
    | none =>
      rcases hwf with hft | ⟨hft, sv, hsv, _⟩
      · exact ⟨mdSeq st, dump_fresh_sequential st hft⟩
      · exact ⟨mdSem st sv, dump_fresh_semantics st sv hft hsv⟩
  obtain ⟨md, hmd⟩ := hdump
  refine ⟨{ st with meta_data := md }, some md, ?_, rfl, rfl⟩
  rcases hwf with hft | ⟨hft, sv, hsv, hv⟩
  · have hne : st.config.feature_type ≠ "semantics" := by rw [hft]; decide
    simp [ForecastNN.fit, hnb, hseq, hne, hmd]
  · have hst : { st with semantic_vectorizer := some sv } = st := by rw [← hsv]
    simp [ForecastNN.fit, hnb, hseq, hft, hsv, hv, hst, hmd]

/-- C5 witness: a concrete fully-fitted semantics-mode orchestrator, no
metadata file, identity fit behaviors, and a record without the "next
line" attribute (which `fit` therefore never reads). -/
theorem c5_fit_no_refit_witness :
    fnnSemDemo.sequential_vectorizer.vocab ≠ none ∧
    (∃ st' fs', ForecastNN.fit (fun s _ => s) (fun s _ => s) fnnSemDemo none
        { body := [some ['x']], attributes := none, labels := [0], span_id := [5] } =
        Except.ok (st', fs', [FitEvent.metaStep])
      ∧ st'.sequential_vectorizer = fnnSemDemo.sequential_vectorizer
      ∧ st'.semantic_vectorizer = fnnSemDemo.semantic_vectorizer) :=
  ⟨by decide, c5_fit_no_refit (fun s _ => s) (fun s _ => s) fnnSemDemo none _
    (by decide) (Or.inr ⟨rfl, semVecDemo, rfl, by decide⟩)⟩

theorem zip4_map_proj {α β γ δ : Type} :
    ∀ (as : List α) (bs : List β) (cs : List γ) (ds : List δ),
      bs.length = as.length → cs.length = as.length → ds.length = as.length →
      (zip4 as bs cs ds).map (fun x => x.1) = as
      ∧ (zip4 as bs cs ds).map (fun x => x.2.1) = bs
      ∧ (zip4 as bs cs ds).map (fun x => x.2.2.1) = cs
      ∧ (zip4 as bs cs ds).map (fun x => x.2.2.2) = ds
      ∧ (zip4 as bs cs ds).map (fun x => [x.2.2.2]) = ds.map (fun d => [d])
      ∧ (zip4 as bs cs ds).length = as.length := by
  intro as
  induction as with
  | nil =>
    intro bs cs ds h1 h2 h3
    obtain rfl := List.length_eq_zero.mp h1
    obtain rfl := List.length_eq_zero.mp h2
    obtain rfl := List.length_eq_zero.mp h3
    simp [zip4]
  | cons a as ih =>
    intro bs cs ds h1 h2 h3
    cases bs with
    | nil => simp at h1
    | cons b bs =>
      cases cs with
      | nil => simp at h2
      | cons c cs =>
        cases ds with
        | nil => simp at h3
        | cons d ds =>
          simp only [List.length_cons, Nat.succ.injEq] at h1 h2 h3
          obtain ⟨p1, p2, p3, p4, p5, p6⟩ := ih bs cs ds h1 h2 h3
          simp [zip4, p1, p2, p3, p4, p5, p6]

/-- A concrete two-span logrecord with the "next line" attribute present. -/
def lrDemo : LogRecordObject :=
  { body := [some ['x'], some ['y']],
    attributes := some [some ['u'], some ['v']],
    labels := [3, 4], span_id := [9, 10] }

/-- C8: when the "next line" attribute is present, `transform` computes the
per-span targets by transforming that attribute through the SEQUENTIAL
sub-vectorizer — whatever the feature type dispatch produced for the span
features — taking each resulting array's first id: on aligned inputs the
produced samples' `window_labels` are exactly those first ids. -/
theorem c8_targets_from_sequential (st : ForecastNN) (lr : LogRecordObject)
    (nexts : List (Option Str)) (feats : List (List Int)) (ids : List Int)
    (hattr : lr.attributes = some nexts)
    (hfeat : ForecastNN.logline_features st lr = Except.ok (some feats))
    (hids : (st.sequential_vectorizer.transform nexts).mapM pyFirst = Except.ok ids)
    (hlf : feats.length = lr.span_id.length)
    (hll : lr.labels.length = lr.span_id.length)
    (hli : ids.length = lr.span_id.length) :
    ∃ ds, ForecastNN.transform st lr = Except.ok ds
      ∧ ds.dataset.map (fun s => s.window_labels) = ids := by
  have hids' : List.mapM.loop pyFirst (st.sequential_vectorizer.transform nexts) [] =
      Except.ok ids := hids
  refine ⟨⟨(zip4 feats lr.labels ids lr.span_id).map
      (fun x => { session_idx := [x.2.2.2], features := x.1,
                  window_anomalies := x.2.1, window_labels := x.2.2.1 })⟩, ?_, ?_⟩
  · simp [ForecastNN.transform, hattr, hfeat, hids', ForecastNNVectorizedDataset.init]
  · rw [List.map_map]
    exact (zip4_map_proj feats lr.labels ids lr.span_id (hll.trans hlf.symm)
      (hli.trans hlf.symm) (hlf.symm ▸ rfl)).2.2.1

/-- C8 witness: a semantics-mode orchestrator, showing the targets still
come from the sequential sub-vectorizer's transform. -/
theorem c8_targets_from_sequential_witness :
    lrDemo.attributes = some [some ['u'], some ['v']] ∧
    ForecastNN.logline_features fnnSemDemo lrDemo = Except.ok (some [[1], [1]]) ∧
    (fnnSemDemo.sequential_vectorizer.transform [some ['u'], some ['v']]).mapM pyFirst =
      Except.ok [0, 0] ∧
    (∃ ds, ForecastNN.transform fnnSemDemo lrDemo = Except.ok ds
      ∧ ds.dataset.map (fun s => s.window_labels) = [0, 0]) :=
  ⟨rfl, rfl, rfl,
    c8_targets_from_sequential fnnSemDemo lrDemo [some ['u'], some ['v']]
      [[1], [1]] [0, 0] rfl rfl rfl rfl rfl rfl⟩

/-- C9: on a valid logrecord (all views of equal span count, aligned
features and targets), `transform` returns a dataset whose length is the
span count and whose i-th sample has `session_idx` the singleton array of
the i-th span id, `window_anomalies` the i-th label, and `features` the
i-th per-span feature array. -/
theorem c9_dataset_aligned (st : ForecastNN) (lr : LogRecordObject)
    (nexts : List (Option Str)) (feats : List (List Int)) (ids : List Int)
    (hattr : lr.attributes = some nexts)
    (hfeat : ForecastNN.logline_features st lr = Except.ok (some feats))
    (hids : (st.sequential_vectorizer.transform nexts).mapM pyFirst = Except.ok ids)
    (hlf : feats.length = lr.span_id.length)
    (hll : lr.labels.length = lr.span_id.length)
    (hli : ids.length = lr.span_id.length) :
    ∃ ds, ForecastNN.transform st lr = Except.ok ds
      ∧ ds.dataset.length = lr.span_id.length
      ∧ ds.dataset.map (fun s => s.session_idx) = lr.span_id.map (fun i => [i])
      ∧ ds.dataset.map (fun s => s.window_anomalies) = lr.labels
      ∧ ds.dataset.map (fun s => s.features) = feats := by
  obtain ⟨p1, p2, p3, p4, p5, p6⟩ := zip4_map_proj feats lr.labels ids lr.span_id
    (hll.trans hlf.symm) (hli.trans hlf.symm) (hlf.symm ▸ rfl)
  have hids' : List.mapM.loop pyFirst (st.sequential_vectorizer.transform nexts) [] =
      Except.ok ids := hids
  refine ⟨⟨(zip4 feats lr.labels ids lr.span_id).map
      (fun x => { session_idx := [x.2.2.2], features := x.1,
                  window_anomalies := x.2.1, window_labels := x.2.2.1 })⟩, ?_, ?_, ?_, ?_, ?_⟩
  · simp [ForecastNN.transform, hattr, hfeat, hids', ForecastNNVectorizedDataset.init]
  · rw [List.length_map, p6, hlf]
  · rw [List.map_map]; exact p5
  · rw [List.map_map]; exact p2
  · rw [List.map_map]; exact p1

/-- C9 witness: a concrete aligned two-span record through the
sequential-mode orchestrator. -/
theorem c9_dataset_aligned_witness :
    lrDemo.attributes = some [some ['u'], some ['v']] ∧
    ForecastNN.logline_features fnnSeqDemo lrDemo = Except.ok (some [[0], [0]]) ∧
    (fnnSeqDemo.sequential_vectorizer.transform [some ['u'], some ['v']]).mapM pyFirst =
      Except.ok [0, 0] ∧
    (∃ ds, ForecastNN.transform fnnSeqDemo lrDemo = Except.ok ds
      ∧ ds.dataset.length = lrDemo.span_id.length
      ∧ ds.dataset.map (fun s => s.session_idx) = lrDemo.span_id.map (fun i => [i])
      ∧ ds.dataset.map (fun s => s.window_anomalies) = lrDemo.labels
      ∧ ds.dataset.map (fun s => s.features) = [[0], [0]]) :=
  ⟨rfl, rfl, rfl,
    c9_dataset_aligned fnnSeqDemo lrDemo [some ['u'], some ['v']]
      [[0], [0]] [0, 0] rfl rfl rfl rfl rfl rfl⟩

/-! Analysis of `_process_logsequence`.  For a single-character separator,
splitting the join decomposes entry by entry, so the collected set is
invariant under reordering and duplication of entries; for a longer
separator, occurrences can straddle the boundary between an entry and an
inserted separator, and the set is order-dependent (see the
counterexample with separator "aba"). -/

/-- Splitting on a single-character separator, in a shape convenient for
induction; `pySplit [c]` agrees with it (`pySplit_single`). -/
def splitCh (c : Char) : Str → List Str
  | [] => [[]]
  | x :: rest =>
    if x = c then [] :: splitCh c rest
    else List.modifyHead (fun seg => x :: seg) (splitCh c rest)

theorem splitCh_cons (c x : Char) (rest : Str) :
    splitCh c (x :: rest) =
      if x = c then [] :: splitCh c rest
      else List.modifyHead (fun seg => x :: seg) (splitCh c rest) :=
  rfl

theorem dedup_toFinset_eq (l : List Str) : l.dedup.toFinset = l.toFinset := by
  ext a
  simp [List.mem_toFinset, List.mem_dedup]

theorem splitCh_ne_nil (c : Char) (s : Str) : splitCh c s ≠ [] := by
  induction s with
  | nil => simp [splitCh]
  | cons x rest ih =>
    by_cases hx : x = c
    · simp [splitCh, hx]
    · simp only [splitCh, if_neg hx]
      cases h : splitCh c rest with
      | nil => exact absurd h ih
      | cons a t => simp [List.modifyHead]

theorem modifyHead_id (l : List Str) : List.modifyHead (fun seg => seg) l = l := by
  cases l <;> simp [List.modifyHead]

theorem modifyHead_modifyHead (f g : Str → Str) (l : List Str) :
    List.modifyHead f (List.modifyHead g l) = List.modifyHead (fun x => f (g x)) l := by
  cases l <;> simp [List.modifyHead]

theorem modifyHead_append (f : Str → Str) (l l' : List Str) (h : l ≠ []) :
    List.modifyHead f (l ++ l') = List.modifyHead f l ++ l' := by
  cases l with
  | nil => exact absurd rfl h
  | cons a t => simp [List.modifyHead]

theorem pySplitAux_single (c : Char) (s : Str) :
    ∀ (fuel : Nat) (acc : Str), s.length ≤ fuel →
      pySplitAux [c] fuel s acc =
        List.modifyHead (fun seg => acc.reverse ++ seg) (splitCh c s) := by
  induction s with
  | nil =>
    intro fuel acc _
    cases fuel <;> simp [pySplitAux, splitCh, List.modifyHead]
  | cons x rest ih =>
    intro fuel acc hf
    cases fuel with
    | zero => simp at hf
    | succ f =>
      have hf' : rest.length ≤ f := by simpa using hf
      by_cases hx : x = c
      · have hpre : ([c] : Str).isPrefixOf (x :: rest) = true := by
          simp [List.isPrefixOf, hx]
        have hdrop : List.drop ([c] : Str).length (x :: rest) = rest := rfl
        rw [pySplitAux, if_pos hpre, hdrop, ih f [] hf', splitCh_cons, if_pos hx]
        have h1 : List.modifyHead (fun seg => List.reverse ([] : Str) ++ seg)
            (splitCh c rest) = splitCh c rest := by
          simpa using modifyHead_id (splitCh c rest)
        rw [h1]
        simp [List.modifyHead]
      · have hpre : ([c] : Str).isPrefixOf (x :: rest) = false := by
          simp [List.isPrefixOf]
          exact fun h => absurd h.symm hx
        rw [pySplitAux, if_neg (by rw [hpre]; exact Bool.false_ne_true), ih f (x :: acc) hf']
        rw [splitCh, if_neg hx, modifyHead_modifyHead]
        simp [List.reverse_cons, List.append_assoc]

theorem pySplit_single (c : Char) (s : Str) : pySplit [c] s = splitCh c s := by
  rw [pySplit, if_neg (by simp), pySplitAux_single c s (s.length + 1) [] (Nat.le_succ _)]
  simpa using modifyHead_id (splitCh c s)

theorem splitCh_append (c : Char) (a b : Str) :
    splitCh c (a ++ c :: b) = splitCh c a ++ splitCh c b := by
  induction a with
  | nil => simp [splitCh]
  | cons x a' ih =>
    by_cases hx : x = c
    · simp [splitCh, hx, ih]
    · rw [List.cons_append, splitCh_cons, if_neg hx, ih,
        modifyHead_append _ _ _ (splitCh_ne_nil c a'), splitCh_cons, if_neg hx]

/-- The union, over the (deduplicated) entries, of each entry's own
single-character split. -/
def corpusSet (c : Char) (es : List Str) : Finset Str :=
  es.foldr (fun e acc => (splitCh c e).toFinset ∪ acc) ∅

theorem splitCh_pyJoin_toFinset (c : Char) :
    ∀ (es : List Str) (e : Str),
      (splitCh c (pyJoin [c] (e :: es))).toFinset =
        (splitCh c e).toFinset ∪ corpusSet c es := by
  intro es
  induction es with
  | nil => intro e; simp [pyJoin, corpusSet]
  | cons e' es ih =>
    intro e
    have hj : pyJoin [c] (e :: e' :: es) = e ++ c :: pyJoin [c] (e' :: es) := by
      simp [pyJoin]
    rw [hj, splitCh_append, List.toFinset_append, ih e']
    simp [corpusSet, Finset.union_assoc]

theorem corpusSet_cons (c : Char) (e : Str) (es : List Str) :
    corpusSet c (e :: es) = (splitCh c e).toFinset ∪ corpusSet c es :=
  rfl

theorem corpusSet_eq_biUnion (c : Char) (es : List Str) :
    corpusSet c es = es.toFinset.biUnion (fun e => (splitCh c e).toFinset) := by
  induction es with
  | nil => simp [corpusSet]
  | cons e es ih => rw [corpusSet_cons, ih, List.toFinset_cons, Finset.biUnion_insert]

theorem process_logsequence_single_set (c : Char) (xs : List (Option Str))
    (hx : xs.filterMap id ≠ []) :
    (ForecastNN.process_logsequence [c] xs).toFinset =
      (xs.filterMap id).toFinset.biUnion (fun e => (splitCh c e).toFinset) := by
  obtain ⟨e, es, he⟩ := List.exists_cons_of_ne_nil hx
  rw [ForecastNN.process_logsequence, dedup_toFinset_eq, pySplit_single, he,
    splitCh_pyJoin_toFinset, corpusSet_eq_biUnion]
  simp [List.toFinset_cons, Finset.biUnion_insert]

/-- C7 (amended): the preprocessor's output is exactly the set of
substrings obtained by dropping missing entries, joining with the
separator and splitting back on it, with no duplicates; and for a
single-character separator that set is invariant under reordering and
duplication of the surviving entries.  (For multi-character separators the
set IS order-dependent: see the counterexample.) -/
theorem c7_preprocess (sep : Str) (c : Char) (xs ys : List (Option Str))
    (hx : xs.filterMap id ≠ []) (hy : ys.filterMap id ≠ [])
    (hset : (xs.filterMap id).toFinset = (ys.filterMap id).toFinset) :
    (ForecastNN.process_logsequence sep xs).Nodup
    ∧ (ForecastNN.process_logsequence sep xs).toFinset
        = (pySplit sep (pyJoin sep (xs.filterMap id))).toFinset
    ∧ (ForecastNN.process_logsequence [c] xs).toFinset
        = (ForecastNN.process_logsequence [c] ys).toFinset := by
  refine ⟨List.nodup_dedup _, dedup_toFinset_eq _, ?_⟩
  rw [process_logsequence_single_set c xs hx, process_logsequence_single_set c ys hy, hset]

/-- C7 witness: separator "s"; the input repeated twice, once with a
missing entry, yields the same set of segments, with no duplicates. -/
theorem c7_preprocess_witness :
    ([some ['a', 's', 'b'], none] : List (Option Str)).filterMap id ≠ [] ∧
    ([some ['a', 's', 'b'], some ['a', 's', 'b']] : List (Option Str)).filterMap id ≠ [] ∧
    (([some ['a', 's', 'b'], none] : List (Option Str)).filterMap id).toFinset =
      (([some ['a', 's', 'b'], some ['a', 's', 'b']] : List (Option Str)).filterMap id).toFinset ∧
    ((ForecastNN.process_logsequence ['s'] [some ['a', 's', 'b'], none]).Nodup
    ∧ (ForecastNN.process_logsequence ['s'] [some ['a', 's', 'b'], none]).toFinset
        = (pySplit ['s'] (pyJoin ['s']
            (([some ['a', 's', 'b'], none] : List (Option Str)).filterMap id))).toFinset
    ∧ (ForecastNN.process_logsequence ['s'] [some ['a', 's', 'b'], none]).toFinset
        = (ForecastNN.process_logsequence ['s']
            [some ['a', 's', 'b'], some ['a', 's', 'b']]).toFinset) :=
  ⟨by decide, by decide, by decide,
    c7_preprocess ['s'] 's' [some ['a', 's', 'b'], none]
      [some ['a', 's', 'b'], some ['a', 's', 'b']] (by decide) (by decide) (by decide)⟩

/-- C7 counterexample: with separator "aba", swapping the two entries "ab"
and "a" changes the collected set ({"", "baa"} versus {"a", "ab"}), so the
preprocessor is NOT order-independent as claimed. -/
theorem c7_order_dependent :
    (ForecastNN.process_logsequence ['a', 'b', 'a']
        [some ['a', 'b'], some ['a']]).toFinset ≠
      (ForecastNN.process_logsequence ['a', 'b', 'a']
        [some ['a'], some ['a', 'b']]).toFinset := by
  decide

end LogAI
